import Mathlib

/-!
Shallow embedding of `src/modules/reddit_listener.py` (Reddit-Scraper).

The module has two functions:
* `initialize_reddit` (lines 24-72): builds a PRAW client from five
  environment variables and verifies the session with `reddit.user.me()`.
* `stream_reddit_activity` (lines 74-160): an infinite generator that
  round-robins two non-blocking cursors (submissions, comments) and
  supervises them with a classify/backoff loop.

Network effects are modelled by passing the platform outcome in as data;
sleeps are recorded as durations; exceptions are an inductive of the
exception classes named in the `except` clauses.
-/

namespace RedditScraper

/-! ### `initialize_reddit` (lines 24-72) -/

/-- The five values `os.getenv` returns for the variables listed in
`required_env_vars` (lines 38-44); `none` models an unset variable. -/
structure RedditEnv where
  clientId : Option String
  clientSecret : Option String
  userAgent : Option String
  username : Option String
  password : Option String
deriving Repr, DecidableEq

/-- The `prawcore` exception classes caught by the verification
`try/except` at lines 61-68. -/
inductive VerifyErrorKind
  | oauthException
  | invalidToken
  | forbidden
  | badRequest
  | responseException
  | requestException
  | serverError
deriving Repr, DecidableEq

/-- The exception types `initialize_reddit` documents (docstring lines
29-31): `ValueError` for missing environment variables, `RuntimeError`
for failed authentication.  The code body only ever constructs the
`RuntimeError` case. -/
inductive InitError
  | valueError (msg : String)
  | runtimeError (msg : String)
deriving Repr, DecidableEq

/-- Message built at line 70: `f"Failed to verify Reddit authentication: {e}"`. -/
def authFailureMessage (detail : String) : String :=
  "Failed to verify Reddit authentication: " ++ detail

/-- The `try: me = reddit.user.me() ... except (...) as e: raise
RuntimeError(...) from e` block at lines 58-70.  The platform's response
to the `me()` call is passed in as `outcome`: `.ok me` on success, or
the raised `prawcore` exception kind together with `str(e)`. -/
def verifySession (outcome : Except (VerifyErrorKind × String) String) :
    Except InitError String :=
  match outcome with
  | .ok me => .ok me
  | .error (_, detail) => .error (.runtimeError (authFailureMessage detail))

/-- The body of `initialize_reddit` (lines 35-72).  The code defines
`required_env_vars` (lines 38-44) but never tests it, so no branch
depends on `env`; `praw.Reddit(...)` (lines 49-55) stores the
credentials without any request, and `reddit.user.me()` (line 59) is
the single network call.  Result: (number of network calls performed,
outcome). -/
def initialize_reddit (env : RedditEnv)
    (meOutcome : Except (VerifyErrorKind × String) String) :
    Nat × Except InitError RedditEnv :=
  (1, (verifySession meOutcome).map fun _ => env)

/-- Environment with every required variable unset. -/
def emptyEnv : RedditEnv := ⟨none, none, none, none, none⟩

/-- Spec-side predicate (not present in the code): at least one of the
five required credential fields is missing. -/
def missingRequired (env : RedditEnv) : Bool :=
  env.clientId.isNone || env.clientSecret.isNone || env.userAgent.isNone ||
    env.username.isNone || env.password.isNone

/-! ### `stream_reddit_activity`: channel-set token (line 94) -/

/-- Python's `sep.join(iterable)`. -/
def pyJoin (sep : String) : List String → String
  | [] => ""
  | [s] => s
  | s :: rest => s ++ sep ++ pyJoin sep rest

/-- Line 94: `subreddit_string = '+'.join(s.strip() for s in sub_reddits)`.
Python's `str.strip()` removes leading/trailing whitespace, modelled by
`String.trim`. -/
def subredditString (sub_reddits : List String) : String :=
  pyJoin "+" (sub_reddits.map String.trim)

/-- Spec-side rendering of "the combined-subscription token equals the
whitespace-trimmed names joined by `+`, preserving the input order". -/
def specCombinedToken : List String → String
  | [] => ""
  | [n] => n.trim
  | n :: rest => n.trim ++ "+" ++ specCombinedToken rest

/-! ### Cursor draining (lines 114-129)

A non-blocking `pause_after=0` stream yields `Submission | None`; a
cursor is modelled as the list of values the stream will yield when
polled.  The inner `for` loop (`if item is None: break; yield item`)
consumes values up to and including the first `None`, yielding the
non-`None` ones unchanged; the rest of the list is what later rounds
will see. -/

/-- One pass of `for item in stream: if item is None: break; yield item`
(lines 117-120 for submissions, 123-126 for comments): the list of
values actually yielded, and the part of the cursor not yet consumed. -/
def drainCursor {α : Type} : List (Option α) → List (Option α) × List (Option α)
  | [] => ([], [])
  | none :: rest => ([], rest)
  | some x :: rest =>
      (some x :: (drainCursor rest).1, (drainCursor rest).2)

/-- One iteration of the inner `while True` (lines 115-129): drain the
submissions cursor, then the comments cursor; returns (values yielded in
order, remaining submissions cursor, remaining comments cursor).  The
round always ends with the idle `time.sleep(0.5)` at line 129. -/
def drainRound {α : Type} (subs coms : List (Option α)) :
    List (Option α) × List (Option α) × List (Option α) :=
  ((drainCursor subs).1 ++ (drainCursor coms).1,
    (drainCursor subs).2, (drainCursor coms).2)

/-! ### The supervising loop (lines 102-160) -/

/-- The exception classes distinguished by the `except` chain at lines
131-156.  `otherException` is anything reaching the `except Exception`
catch-all at line 156. -/
inductive RaisedSignal
  | keyboardInterrupt
  | forbidden
  | notFound
  | oauthException
  | invalidToken
  | requestException
  | responseException
  | serverError
  | otherException
deriving Repr, DecidableEq

/-- Access class of line 135: `(Forbidden, NotFound)`. -/
def isAccessError : RaisedSignal → Bool
  | .forbidden | .notFound => true
  | _ => false

/-- Auth class of line 139: `(OAuthException, InvalidToken)`. -/
def isAuthError : RaisedSignal → Bool
  | .oauthException | .invalidToken => true
  | _ => false

/-- Transient class of lines 143-148:
`(RequestException, ResponseException, ServerError)`. -/
def isTransient : RaisedSignal → Bool
  | .requestException | .responseException | .serverError => true
  | _ => false

/-- Line 101: `max_backoff_seconds = 180`. -/
def maxBackoffSeconds : Nat := 180

/-- Lines 100 and 112: the initial backoff, 5 seconds. -/
def initialBackoffSeconds : Nat := 5

/-- Line 151: `jitter = 0.5 + (time.time() % 1) * 0.5`.  Since
`time.time() % 1` lies in `[0, 1)`, the jitter lies in `[0.5, 1.0)`;
it is modelled as an arbitrary rational in that range. -/
def jitterOk (j : ℚ) : Prop := 1/2 ≤ j ∧ j < 1

/-- `int(backoff_seconds * (1.5 + jitter))` from line 152: Python `int()`
truncates toward zero, which is the floor for this non-negative value. -/
def sleepForRaw (backoff_seconds : Nat) (j : ℚ) : Nat :=
  Int.toNat ⌊(backoff_seconds : ℚ) * (3/2 + j)⌋

/-- Line 152: `sleep_for = min(max_backoff_seconds, int(backoff_seconds * (1.5 + jitter)))`. -/
def sleepFor (backoff_seconds : Nat) (j : ℚ) : Nat :=
  min maxBackoffSeconds (sleepForRaw backoff_seconds j)

/-- Line 155: `backoff_seconds = min(max_backoff_seconds, max(5, sleep_for * 2))`. -/
def nextBackoff (sleep_for : Nat) : Nat :=
  min maxBackoffSeconds (max 5 (sleep_for * 2))

/-- What one `except` clause does: whether it re-raises (ending the
generator), the sleeps it performs, the value of `backoff_seconds`
afterwards, and whether control returns to the top of the outer
`while True` (a reconnect attempt). -/
structure HandleResult where
  reraised : Option RaisedSignal
  sleeps : List Nat
  backoffAfter : Nat
  reconnects : Bool
deriving Repr, DecidableEq

/-- The `except` chain at lines 131-160, applied to a raised signal with
the current `backoff_seconds` and the jitter `j` drawn at line 151. -/
def handleStreamError (sig : RaisedSignal) (backoff_seconds : Nat) (j : ℚ) :
    HandleResult :=
  match sig with
  | .keyboardInterrupt =>
      -- lines 131-134: log, `raise`
      ⟨some sig, [], backoff_seconds, false⟩
  | .forbidden | .notFound =>
      -- lines 135-138: log, `raise`
      ⟨some sig, [], backoff_seconds, false⟩
  | .oauthException | .invalidToken =>
      -- lines 139-142: log, `raise`
      ⟨some sig, [], backoff_seconds, false⟩
  | .requestException | .responseException | .serverError =>
      -- lines 143-155: backoff with jitter, then retry
      ⟨none, [sleepFor backoff_seconds j], nextBackoff (sleepFor backoff_seconds j), true⟩
  | .otherException =>
      -- lines 156-160: fixed 15-second delay, `backoff_seconds` untouched
      ⟨none, [15], backoff_seconds, true⟩

/-- Where within one iteration of the outer `while True` (lines 102-160)
an exception is raised: `connectFail` at lines 104-109 (before the reset
at line 112), `streamFail` during the inner drain loop (lines 115-129,
after `backoff_seconds = 5` has run).  Lines 104-109 only log and build
lazy values — `reddit.subreddit(...)` and the two `stream` generator
calls perform no request — so no `prawcore` exception can be raised
there: a `connectFail` is reachable only for an asynchronous
`KeyboardInterrupt`.  Every `prawcore` error is raised while iterating
the streams, i.e. as a `streamFail`, after the line-112 reset has
already executed in that same outer iteration. -/
inductive IterOutcome
  | connectFail (sig : RaisedSignal)
  | streamFail (sig : RaisedSignal)
deriving Repr, DecidableEq

/-- One iteration of the outer `while True` that ends in a raised
signal.  A `streamFail` means the streams were opened successfully, so
line 112 (`backoff_seconds = 5`) executed before the failure. -/
def loopIter (backoff_seconds : Nat) (o : IterOutcome) (j : ℚ) : HandleResult :=
  match o with
  | .connectFail sig => handleStreamError sig backoff_seconds j
  | .streamFail sig => handleStreamError sig initialBackoffSeconds j

/-- Run the outer loop over a script of iteration outcomes (each with
its jitter draw).  Returns (all sleeps performed in order, the signal
that ended the generator if any, the final `backoff_seconds`).  A
re-raised signal terminates the run: later script entries are never
reached. -/
def runLoop (backoff_seconds : Nat) :
    List (IterOutcome × ℚ) → List Nat × Option RaisedSignal × Nat
  | [] => ([], none, backoff_seconds)
  | (o, j) :: rest =>
      let r := loopIter backoff_seconds o j
      match r.reraised with
      | some sig => (r.sleeps, some sig, r.backoffAfter)
      | none =>
          let t := runLoop r.backoffAfter rest
          (r.sleeps ++ t.1, t.2.1, t.2.2)

/-! ### Theorems -/

/-- C1: `initialize_reddit` never raises `ValueError` for missing
credentials, despite its docstring: with every required variable unset
it still performs its one network call (`reddit.user.me()`), and the
failure surfaces as a `RuntimeError`, never as a `ValueError`. -/
theorem initialize_reddit_missing_creds_no_check :
    missingRequired emptyEnv = true ∧
    (initialize_reddit emptyEnv (.error (.oauthException, "invalid_grant error processing request"))).1 = 1 ∧
    ∀ msg, (initialize_reddit emptyEnv
        (.error (.oauthException, "invalid_grant error processing request"))).2 ≠
      .error (.valueError msg) := by
  refine ⟨rfl, rfl, fun msg h => ?_⟩
  simp [initialize_reddit, verifySession, Except.map] at h

/-- C3: with a submissions cursor holding `[p1, p2]` before its pause
marker and a comments cursor holding `[c1]` before its pause marker, one
drain round yields exactly `p1, p2, c1` in that order and leaves both
cursors empty (the round then idles at line 129). -/
theorem drainRound_posts_before_comments {α : Type} (p1 p2 c1 : α) :
    drainRound [some p1, some p2, none] [some c1, none] =
      ([some p1, some p2, some c1], [], []) := rfl

/-- C4: an Access-class (`Forbidden`/`NotFound`) or Auth-class
(`OAuthException`/`InvalidToken`) error raised while connecting or
streaming ends the run at once: the run performs no sleep at all and
re-raises that signal, so no backoff and no reconnect attempt follows
(the rest of the script is never reached). -/
theorem access_auth_error_reraised (sig : RaisedSignal)
    (hsig : isAccessError sig = true ∨ isAuthError sig = true)
    (b : Nat) (j : ℚ) (o : IterOutcome)
    (ho : o = .connectFail sig ∨ o = .streamFail sig)
    (rest : List (IterOutcome × ℚ)) :
    (runLoop b ((o, j) :: rest)).1 = [] ∧
      (runLoop b ((o, j) :: rest)).2.1 = some sig := by
  rcases ho with ho | ho <;> subst ho <;>
    cases sig <;>
    simp_all [isAccessError, isAuthError, runLoop, loopIter, handleStreamError]

theorem access_auth_error_reraised_witness :
    (runLoop 7 [(.connectFail .forbidden, 0), (.connectFail .serverError, 0)]).1 = [] ∧
      (runLoop 7 [(.connectFail .forbidden, 0), (.connectFail .serverError, 0)]).2.1 =
        some .forbidden :=
  access_auth_error_reraised .forbidden (Or.inl rfl) 7 0 _ (Or.inl rfl) _

/-- C5: every `prawcore` error class caught during session verification
is wrapped into the `RuntimeError` whose message is the fixed prefix
followed by the original error detail, so the detail is preserved
verbatim. -/
theorem verifySession_wraps_cause (k : VerifyErrorKind) (d : String) :
    verifySession (.error (k, d)) = .error (.runtimeError (authFailureMessage d)) ∧
      ∃ p, authFailureMessage d = p ++ d :=
  ⟨rfl, "Failed to verify Reddit authentication: ", rfl⟩

/-- C6: a `KeyboardInterrupt` raised at any point of an iteration
(connecting or streaming/idle-polling) terminates the run immediately
with that signal: no sleep is performed and no later iteration (backoff
or reconnect) ever runs. -/
theorem cancellation_is_terminal (b : Nat) (j : ℚ) (o : IterOutcome)
    (ho : o = .connectFail .keyboardInterrupt ∨ o = .streamFail .keyboardInterrupt)
    (rest : List (IterOutcome × ℚ)) :
    (runLoop b ((o, j) :: rest)).1 = [] ∧
      (runLoop b ((o, j) :: rest)).2.1 = some .keyboardInterrupt := by
  rcases ho with ho | ho <;> subst ho <;>
    simp [runLoop, loopIter, handleStreamError]

theorem cancellation_is_terminal_witness :
    (runLoop 5 [(.streamFail .keyboardInterrupt, 0), (.connectFail .serverError, 0)]).1 = [] ∧
      (runLoop 5 [(.streamFail .keyboardInterrupt, 0), (.connectFail .serverError, 0)]).2.1 =
        some .keyboardInterrupt :=
  cancellation_is_terminal 5 0 _ (Or.inr rfl) _

/-- C7: once the streams have been opened successfully (a `streamFail`
iteration), line 112 has reset `backoff_seconds` to the initial 5, so a
subsequent transient failure computes its sleep and its next delay from
5, whatever the delay `b` was before the reconnect. -/
theorem reconnect_resets_backoff (b : Nat) (sig : RaisedSignal)
    (hsig : isTransient sig = true) (j : ℚ) :
    (loopIter b (.streamFail sig) j).sleeps = [sleepFor initialBackoffSeconds j] ∧
      (loopIter b (.streamFail sig) j).backoffAfter =
        nextBackoff (sleepFor initialBackoffSeconds j) := by
  cases sig <;> simp_all [isTransient, loopIter, handleStreamError]

theorem reconnect_resets_backoff_witness :
    (loopIter 100 (.streamFail .serverError) (1/2)).sleeps =
        [sleepFor initialBackoffSeconds (1/2)] ∧
      (loopIter 100 (.streamFail .serverError) (1/2)).backoffAfter =
        nextBackoff (sleepFor initialBackoffSeconds (1/2)) :=
  reconnect_resets_backoff 100 .serverError rfl (1/2)

/-- C8: the `except Exception` catch-all (lines 156-160) sleeps exactly
the fixed 15 seconds, leaves `backoff_seconds` unchanged, and retries
without re-raising — the multiplicative transient growth is not applied. -/
theorem unexpected_error_fixed_delay (b : Nat) (j : ℚ) :
    handleStreamError .otherException b j = ⟨none, [15], b, true⟩ := rfl

/-- C9: the combined-subscription token built at line 94 equals the
whitespace-trimmed channel names joined by `+` in input order. -/
theorem subredditString_spec :
    ∀ sub_reddits : List String, subredditString sub_reddits = specCombinedToken sub_reddits
  | [] => rfl
  | [_] => rfl
  | a :: b :: rest => by
      have ih := subredditString_spec (b :: rest)
      simp only [subredditString, List.map, pyJoin, specCombinedToken] at ih ⊢
      rw [ih]

/-- Helper for C10: the inner `for` loop never executes `yield` on the
`None` pause marker — it breaks first. -/
theorem drainCursor_no_none {α : Type} :
    ∀ (l : List (Option α)) (y : Option α), y ∈ (drainCursor l).1 → y ≠ none
  | [], _, h => by simp [drainCursor] at h
  | none :: _, _, h => by simp [drainCursor] at h
  | some _ :: rest, y, h => by
      simp only [drainCursor, List.mem_cons] at h
      rcases h with h | h
      · subst h; simp
      · exact drainCursor_no_none rest y h

/-- C10: no value yielded by a drain round is the cursors' `None` pause
marker; the consumer only ever receives actual items. -/
theorem drainRound_never_yields_none {α : Type} (subs coms : List (Option α))
    (y : Option α) (h : y ∈ (drainRound subs coms).1) : y ≠ none := by
  simp only [drainRound, List.mem_append] at h
  rcases h with h | h
  · exact drainCursor_no_none subs y h
  · exact drainCursor_no_none coms y h

theorem drainRound_never_yields_none_witness : (some 3 : Option Nat) ≠ none :=
  drainRound_never_yields_none [some 3, none] [some 4, none] (some 3)
    (by simp [drainRound, drainCursor])

/-- C2: the multiplicative backoff growth is dead code, so the claimed
non-decreasing sleep sequence fails.  Lines 104-109 only build lazy
generators, so every transient failure is a `streamFail`: it occurs
after line 112 has already reset `backoff_seconds` to 5 in that outer
iteration.  Three consecutive transient failures with jitter draws 0.9,
0.5, 0.5 therefore sleep 12, 10, 10 — a decreasing sequence (each sleep
is `int(5 * (1.5 + jitter))`), and the grown delay 24 stored after the
first failure is discarded unused. -/
theorem transient_failures_sleep_from_reset_delay :
    runLoop initialBackoffSeconds
        [(.streamFail .serverError, 9/10), (.streamFail .requestException, 1/2),
          (.streamFail .responseException, 1/2)] =
      ([12, 10, 10], none, 20) ∧
    nextBackoff (sleepFor initialBackoffSeconds (9/10)) = 24 := by
  have h9 : sleepForRaw 5 (9/10) = 12 := by
    unfold sleepForRaw
    have hq : ((5 : Nat) : ℚ) * (3/2 + 9/10) = ((12 : ℤ) : ℚ) := by push_cast; norm_num
    rw [hq, Int.floor_intCast]
    rfl
  have h5 : sleepForRaw 5 (1/2) = 10 := by
    unfold sleepForRaw
    have hq : ((5 : Nat) : ℚ) * (3/2 + 1/2) = ((10 : ℤ) : ℚ) := by push_cast; norm_num
    rw [hq, Int.floor_intCast]
    rfl
  have h5' : sleepForRaw 5 ((2 : ℚ)⁻¹) = 10 := by rw [← one_div]; exact h5
  constructor
  · simp [runLoop, loopIter, handleStreamError, sleepFor, nextBackoff,
      maxBackoffSeconds, initialBackoffSeconds, h9, h5, h5']
  · simp [nextBackoff, sleepFor, maxBackoffSeconds, initialBackoffSeconds, h9]

end RedditScraper
